import Mathlib

/-!
Verification of the monitoring-and-retry engine of the price-tracker program
(`src/main.py`).  The embedding translates `PriceMonitor._check_single_product`,
`AmazonPriceParser.extract_price`, `AmazonPriceParser._parse_brazilian_currency`,
`PriceMonitor.check_once` and `PriceMonitor.run_forever` into Lean.

Modelling conventions:
* Prices (Python `float` values coming from currency parsing) are modelled as
  rationals `ℚ`; every concrete price in the claims is an exact decimal.
* The injected collaborators (`PriceFetcher.fetch_html`, `PriceParser.extract_price`,
  `Notifier.notify`) are modelled as a `Behavior` record of pure functions:
  `fetch` is indexed by the number of fetch calls already made and returns either
  a body text or a raised transport error (`Except.error`); `notifyOk` is indexed
  by the number of notify calls already made and tells whether that call returns
  normally (`true`) or raises (`false`).  An exception raised by a collaborator and
  caught by the `try/except` of the source is a normal value here, so "the
  exception does not propagate" is by construction; what remains observable is the
  control flow after the catch, which the embedding reproduces exactly.
* Sleeps (`time.sleep`, the jittered retry delay) have no observable effect on the
  claims about the single-item check and are dropped there; the pacing claims about
  the monitor loop are settled on an event-trace model further below.
-/

/-- The `Product` dataclass of `src/main.py` (name, url, target_price). -/
structure Product where
  name : String
  url : String
  target_price : ℚ
deriving DecidableEq

/-- Pure model of the three injected collaborators used by
`PriceMonitor._check_single_product`.  `fetch i` is the result of the `(i+1)`-st
call to `fetcher.fetch_html` (`Except.error` = the call raises), `parse` is
`parser.extract_price`, and `notifyOk j` tells whether the `(j+1)`-st call to
`notifier.notify` returns normally (`false` = the call raises). -/
structure Behavior where
  fetch : Nat → Except Unit String
  parse : String → Option ℚ
  notifyOk : Nat → Bool

/-- Observable outcome of one run of `_check_single_product`: how many fetch
attempts were made, how many times `notifier.notify` was invoked, what body (if
any) was written to `last_failed.html`, and whether the check ended through the
`return` statement (resolved) rather than by exhausting the retry budget. -/
structure CheckResult where
  fetchCalls : Nat
  notifyCalls : Nat
  archived : Option String
  resolved : Bool
deriving DecidableEq

/-- The archiving guard at the end of `_check_single_product`:
`if last_html:` writes `last_html` to `last_failed.html`.  Python truthiness of a
string makes the empty string falsy, so `None` and `""` are both skipped. -/
def archiveOf : Option String → Option String
  | none => none
  | some s => if s = "" then none else some s

/-- One iteration of the `while` body of `_check_single_product` (lines 249-276
of `src/main.py`): call `fetch_html` (may raise), on success store the body as
`last_html` and run `extract_price`; if a price was obtained and is at or below
the target, call `notify` (may raise, and the raise is caught by the same
`except Exception` handler, skipping the `return`); the `return` is reached
exactly when a price was obtained and either it is above target or the notify
call returned normally.  Result: (new `last_html`, number of notify calls made
in this iteration, whether the `return` was reached). -/
def attemptStep (b : Behavior) (target : ℚ) (lastHtml : Option String)
    (fetchIdx notifyIdx : Nat) : Option String × Nat × Bool :=
  match b.fetch fetchIdx with
  | Except.error _ => (lastHtml, 0, false)
  | Except.ok html =>
    match b.parse html with
    | some price =>
      if price ≤ target then
        if b.notifyOk notifyIdx then (some html, 1, true)
        else (some html, 1, false)
      else (some html, 0, true)
    | none => (some html, 0, false)

/-- The `while attempts <= self._max_retries_per_product` loop of
`_check_single_product`, driven by the remaining attempt budget
(`remaining = max_retries + 1 - attempts`); `fc` and `nc` accumulate the fetch
and notify call counts (which also serve as the call indices into `Behavior`).
When the budget reaches zero the epilogue runs: the archive guard on
`last_html`. -/
def checkRun (b : Behavior) (target : ℚ) :
    Nat → Option String → Nat → Nat → CheckResult
  | 0, lastHtml, fc, nc =>
    { fetchCalls := fc, notifyCalls := nc, archived := archiveOf lastHtml,
      resolved := false }
  | remaining + 1, lastHtml, fc, nc =>
    if (attemptStep b target lastHtml fc nc).2.2 then
      { fetchCalls := fc + 1,
        notifyCalls := nc + (attemptStep b target lastHtml fc nc).2.1,
        archived := none, resolved := true }
    else
      checkRun b target remaining (attemptStep b target lastHtml fc nc).1
        (fc + 1) (nc + (attemptStep b target lastHtml fc nc).2.1)

/-- `PriceMonitor._check_single_product` (lines 244-288 of `src/main.py`) for one
product: `attempts` starts at 0 and the loop runs while `attempts ≤ max_retries`,
so the budget is `max_retries + 1` iterations; each iteration makes exactly one
fetch attempt. -/
def _check_single_product (b : Behavior) (maxRetries : Nat) (p : Product) :
    CheckResult :=
  checkRun b p.target_price (maxRetries + 1) none 0 0

/-- The first extracted price across the attempts of a check: scans the fetch
results from call index `fc`, skipping raised fetches and bodies with no
extractable price, and returns the first price obtained within `n` attempts.
Statement helper over the collaborator model, used to phrase when the
notification gate is reached. -/
def firstPrice (b : Behavior) : Nat → Nat → Option ℚ
  | 0, _ => none
  | n + 1, fc =>
    match b.fetch fc with
    | Except.error _ => firstPrice b n (fc + 1)
    | Except.ok html =>
      match b.parse html with
      | some price => some price
      | none => firstPrice b n (fc + 1)

-- ===== Currency Normalizer (`AmazonPriceParser._parse_brazilian_currency`) =====

/-- Value of a list of decimal digit characters read left to right, as Python
float parsing reads the integer or fractional digit block. -/
def digitsVal (cs : List Char) : Nat :=
  cs.foldl (fun a c => 10 * a + (c.toNat - 48)) 0

/-- Models the Python builtin `float(s)` on the strings that can reach it in
`_parse_brazilian_currency`: after the regex filter and the two `replace` calls
the argument contains only ASCII digits and `.` characters.  `float` raises
`ValueError` (modelled as `none`) when a character is outside that alphabet,
when there is more than one dot, or when there is no digit at all (so `""`,
`"."`, `".."` all fail); otherwise the value is the decimal number
`<intpart>.<fracpart>` around the single optional dot (`"5."` is 5, `".5"` is
one half). -/
def pyFloatChars (cs : List Char) : Option ℚ :=
  if cs.any (fun c => !(c.isDigit || c == '.')) then none
  else if 1 < (cs.filter (fun c => c == '.')).length then none
  else if !cs.any (fun c => c.isDigit) then none
  else
    some ((digitsVal (cs.takeWhile (fun c => c != '.')) : ℚ) +
      (digitsVal ((cs.dropWhile (fun c => c != '.')).drop 1) : ℚ) /
        (10 : ℚ) ^ ((cs.dropWhile (fun c => c != '.')).drop 1).length)

/-- `AmazonPriceParser._parse_brazilian_currency` (lines 181-198 of
`src/main.py`) on the character list of its argument:
`re.sub(r"[^\d,\.]", "", text)` keeps only digits, commas and dots; an empty
filtered string returns `None`; then `.replace(".", "")` removes every dot,
`.replace(",", ".")` turns every comma into a dot, and the result goes to
`float`, with `ValueError` caught and converted to `None`. -/
def parseCurrencyChars (cs : List Char) : Option ℚ :=
  if cs.filter (fun c => c.isDigit || c == ',' || c == '.') = [] then none
  else
    pyFloatChars
      (((cs.filter (fun c => c.isDigit || c == ',' || c == '.')).filter
          (fun c => c != '.')).map (fun c => if c == ',' then '.' else c))

/-- String-level wrapper for `_parse_brazilian_currency`. -/
def _parse_brazilian_currency (text : String) : Option ℚ :=
  parseCurrencyChars text.data

-- ===== Price Extractor (`AmazonPriceParser.extract_price`) =====

/-- Abstraction of the DOM queries of `AmazonPriceParser.extract_price`: each
field is the stripped text of the node returned by the corresponding
`select_one` call, `none` when no truthy node is selected (a missing node, or
an empty tag, which is falsy in BeautifulSoup and thus retained by the
`if not price_span` fallback exactly like a missing one).  `some ""` is a
selected node whose text strips to the empty string. -/
structure AmazonPage where
  a_offscreen : Option String
  corePrice_offscreen : Option String
  a_price_whole : Option String
  a_price_fraction : Option String

/-- Second extraction strategy (lines 166-175 of `src/main.py`): if a
`span.a-price-whole` node exists, compose `f"R$ {whole_text},{frac_text}"` with
`"00"` standing in for a missing fraction node, and normalize it; otherwise
report that nothing was found (`None` after the debug print). -/
def extract_whole_fraction (page : AmazonPage) : Option ℚ :=
  match page.a_price_whole with
  | some whole =>
    _parse_brazilian_currency
      ("R$ " ++ whole ++ "," ++ page.a_price_fraction.getD "00")
  | none => none

/-- `AmazonPriceParser.extract_price` (lines 153-179 of `src/main.py`): select
`span.a-offscreen`, falling back to `#corePrice_feature_div span.a-offscreen`;
if the selected node has non-empty stripped text, normalize that text and
return (even when normalization fails); otherwise try the whole+fraction
strategy. -/
def extract_price (page : AmazonPage) : Option ℚ :=
  match (match page.a_offscreen with
         | some t => some t
         | none => page.corePrice_offscreen) with
  | some t =>
    if t = "" then extract_whole_fraction page else _parse_brazilian_currency t
  | none => extract_whole_fraction page

-- ===== Monitor Loop (`PriceMonitor.check_once` / `run_forever`) =====

/-- Observable events of the monitor loop: checking one item, the inter-item
pacing sleep, and the inter-cycle sleep. -/
inductive MonitorEvent where
  | checkItem : String → MonitorEvent
  | interItemSleep : MonitorEvent
  | interCycleSleep : MonitorEvent
deriving DecidableEq

/-- Recognizer for the inter-item pacing sleep event. -/
def isInterItemSleep : MonitorEvent → Bool
  | MonitorEvent.interItemSleep => true
  | _ => false

/-- Recognizer for the inter-cycle sleep event. -/
def isInterCycleSleep : MonitorEvent → Bool
  | MonitorEvent.interCycleSleep => true
  | _ => false

/-- The body of the `for idx, product in enumerate(self._products, start=1)`
loop of `PriceMonitor.check_once` (lines 290-300 of `src/main.py`): `idx` is
the 1-based index of the current product and `total` the list length; after
checking a product the loop sleeps `interval_between_products` seconds exactly
when `idx < len(self._products)`. -/
def check_once_from (idx total : Nat) : List Product → List MonitorEvent
  | [] => []
  | p :: rest =>
    MonitorEvent.checkItem p.name ::
      (if idx < total then
        MonitorEvent.interItemSleep :: check_once_from (idx + 1) total rest
      else check_once_from (idx + 1) total rest)

/-- `PriceMonitor.check_once` as the trace of events of one pass. -/
def check_once (products : List Product) : List MonitorEvent :=
  check_once_from 1 products.length products

/-- `PriceMonitor.run_forever` (lines 302-310 of `src/main.py`) truncated to a
finite number of cycles: each cycle is one `check_once` pass followed by the
`time.sleep(self._interval_between_cycles)` call. -/
def run_cycles (products : List Product) : Nat → List MonitorEvent
  | 0 => []
  | n + 1 =>
    check_once products ++ [MonitorEvent.interCycleSleep] ++ run_cycles products n

-- ===== concrete collaborator behaviors and inputs used by the witnesses =====

/-- Fetch collaborator that raises a transport error on every call. -/
def alwaysFailFetch : Behavior :=
  { fetch := fun _ => Except.error (), parse := fun _ => none,
    notifyOk := fun _ => true }

/-- Fetch raises twice, then returns a body whose extracted price is 8. -/
def failTwiceThenCheap : Behavior :=
  { fetch := fun i => if i < 2 then Except.error () else Except.ok "body",
    parse := fun s => if s = "body" then some 8 else none,
    notifyOk := fun _ => true }

/-- Fetch always succeeds with a body priced at 5; every notify call raises. -/
def notifyFailEveryTime : Behavior :=
  { fetch := fun _ => Except.ok "page", parse := fun _ => some 5,
    notifyOk := fun _ => false }

/-- Fetch always succeeds with a body priced at 7; every notify call raises. -/
def notifyFailEveryTime2 : Behavior :=
  { fetch := fun _ => Except.ok "page", parse := fun _ => some 7,
    notifyOk := fun _ => false }

/-- Fetch always succeeds with a body priced at 10; notify always succeeds. -/
def okNotify : Behavior :=
  { fetch := fun _ => Except.ok "page", parse := fun _ => some 10,
    notifyOk := fun _ => true }

/-- Fetch always succeeds with the empty string as body; no price extractable. -/
def emptyBodyFetch : Behavior :=
  { fetch := fun _ => Except.ok "", parse := fun _ => none,
    notifyOk := fun _ => true }

/-- Fetch always succeeds with body "X"; no price extractable. -/
def nonemptyBodyFetch : Behavior :=
  { fetch := fun _ => Except.ok "X", parse := fun _ => none,
    notifyOk := fun _ => true }

/-- Sample product with target price 10, used by the C1 evidence. -/
def prodC1 : Product := { name := "a", url := "u", target_price := 10 }

/-- Sample product with target price 7, used by the C2 counterexample. -/
def prodC2 : Product := { name := "b", url := "v", target_price := 7 }

/-- Sample product with target price 10, used by the C2 witness. -/
def prodC2a : Product := { name := "c", url := "w", target_price := 10 }

/-- Sample product used by the C3 witness. -/
def prodC3 : Product := { name := "d", url := "x", target_price := 1 }

/-- Sample product with target price 10, used by the C4 witness. -/
def prodC4 : Product := { name := "e", url := "y", target_price := 10 }

/-- Sample product used by the C10 witness. -/
def prodC10 : Product := { name := "f", url := "z", target_price := 1 }

/-- Page with only the whole+fraction shape, whole "1.499" and fraction "99". -/
def pageC7a : AmazonPage := ⟨none, none, some "1.499", some "99"⟩

/-- Page with only the whole part "1.499" and no fraction node. -/
def pageC7b : AmazonPage := ⟨none, none, some "1.499", none⟩

/-- Page exposing neither price shape. -/
def pageC8 : AmazonPage := ⟨none, none, none, none⟩

-- ===== helper lemmas about the retry loop =====

lemma checkRun_fetchCalls_le (b : Behavior) (t : ℚ) :
    ∀ (n : Nat) (lastHtml : Option String) (fc nc : Nat),
      (checkRun b t n lastHtml fc nc).fetchCalls ≤ fc + n := by
  intro n
  induction n with
  | zero => intro lastHtml fc nc; simp [checkRun]
  | succ m ih =>
    intro lastHtml fc nc
    simp only [checkRun]
    split
    · show fc + 1 ≤ fc + (m + 1)
      omega
    · exact le_trans (ih _ _ _) (by omega)

lemma checkRun_notifyCalls_of_deliveryOk (b : Behavior) (t : ℚ)
    (h : ∀ i, b.notifyOk i = true) :
    ∀ (n : Nat) (lastHtml : Option String) (fc nc : Nat),
      (checkRun b t n lastHtml fc nc).notifyCalls =
        nc + (match firstPrice b n fc with
              | some price => if price ≤ t then 1 else 0
              | none => 0) := by
  intro n
  induction n with
  | zero => intro lastHtml fc nc; simp [checkRun, firstPrice]
  | succ m ih =>
    intro lastHtml fc nc
    cases hf : b.fetch fc with
    | error e =>
      simp [checkRun, attemptStep, firstPrice, hf, ih]
    | ok html =>
      cases hp : b.parse html with
      | none => simp [checkRun, attemptStep, firstPrice, hf, hp, ih]
      | some price =>
        by_cases hle : price ≤ t
        · simp [checkRun, attemptStep, firstPrice, hf, hp, hle, h nc]
        · simp [checkRun, attemptStep, firstPrice, hf, hp, hle]

/-- All bodies successfully fetched empty implies the final archive guard skips:
the invariant is that `last_html` stays `none` or `some ""`. -/
lemma checkRun_archived_none_of_empty_bodies (b : Behavior) (t : ℚ)
    (h : ∀ i html, b.fetch i = Except.ok html → html = "") :
    ∀ (n : Nat) (lastHtml : Option String) (fc nc : Nat),
      lastHtml = none ∨ lastHtml = some "" →
      (checkRun b t n lastHtml fc nc).archived = none := by
  intro n
  induction n with
  | zero =>
    intro lastHtml fc nc hlast
    rcases hlast with h1 | h1 <;> simp [checkRun, h1, archiveOf]
  | succ m ih =>
    intro lastHtml fc nc hlast
    cases hf : b.fetch fc with
    | error e =>
      simp only [checkRun, attemptStep, hf]
      exact ih lastHtml (fc + 1) (nc + 0) hlast
    | ok html =>
      have hempty := h fc html hf
      subst hempty
      cases hp : b.parse "" with
      | none =>
        simp only [checkRun, attemptStep, hf, hp]
        exact ih (some "") (fc + 1) (nc + 0) (Or.inr rfl)
      | some price =>
        by_cases hle : price ≤ t
        · cases hn : b.notifyOk nc with
          | false =>
            simp only [checkRun, attemptStep, hf, hp, hle, if_true, hn,
              Bool.false_eq_true, if_false]
            exact ih (some "") (fc + 1) (nc + 1) (Or.inr rfl)
          | true =>
            simp [checkRun, attemptStep, hf, hp, hle, hn]
        · simp [checkRun, attemptStep, hf, hp, hle]

lemma checkRun_archived_ne_empty (b : Behavior) (t : ℚ) :
    ∀ (n : Nat) (lastHtml : Option String) (fc nc : Nat) (s : String),
      (checkRun b t n lastHtml fc nc).archived = some s → s ≠ "" := by
  intro n
  induction n with
  | zero =>
    intro lastHtml fc nc s hs
    simp only [checkRun] at hs
    cases lastHtml with
    | none => simp [archiveOf] at hs
    | some t0 =>
      by_cases h0 : t0 = ""
      · simp [archiveOf, h0] at hs
      · simp only [archiveOf, h0, if_false, Option.some.injEq] at hs
        subst hs; exact h0
  | succ m ih =>
    intro lastHtml fc nc s hs
    simp only [checkRun] at hs
    split at hs
    · exact absurd hs (by simp)
    · exact ih _ _ _ _ hs

-- ===== helper lemmas about the currency normalizer and the extractor =====

lemma pyFloatChars_no_digit (cs : List Char)
    (h : cs.any (fun c => c.isDigit) = false) : pyFloatChars cs = none := by
  unfold pyFloatChars
  split
  · rfl
  · split
    · rfl
    · simp [h]

lemma parseCurrencyChars_no_digit (cs : List Char)
    (h : ∀ c ∈ cs, c.isDigit = false) : parseCurrencyChars cs = none := by
  unfold parseCurrencyChars
  split
  · rfl
  · apply pyFloatChars_no_digit
    rw [List.any_eq_false]
    intro c hc
    simp only [List.mem_map, List.mem_filter] at hc
    obtain ⟨d, ⟨⟨hdcs, hdkeep⟩, hdne⟩, hfd⟩ := hc
    have hdig : d.isDigit = false := h d hdcs
    rw [hdig] at hdkeep
    simp only [Bool.false_or] at hdkeep
    have hdne2 : (d == '.') = false := by
      have hne : d ≠ '.' := by simpa using hdne
      simpa using hne
    rw [hdne2, Bool.or_false] at hdkeep
    have hdc : d = ',' := by simpa using hdkeep
    subst hdc
    simp only [beq_self_eq_true, if_true] at hfd
    subst hfd
    decide

lemma extract_price_eq_whole_fraction (page : AmazonPage)
    (h1 : page.a_offscreen.getD "" = "")
    (h2 : page.corePrice_offscreen.getD "" = "") :
    extract_price page = extract_whole_fraction page := by
  unfold extract_price
  cases ho : page.a_offscreen with
  | some t =>
    rw [ho] at h1
    simp only [Option.getD_some] at h1
    subst h1
    simp
  | none =>
    cases hc : page.corePrice_offscreen with
    | some t =>
      rw [hc] at h2
      simp only [Option.getD_some] at h2
      subst h2
      simp
    | none => simp

-- ===== claim theorems =====

/-- Claim C5: for every retry budget `maxRetries ≥ 0` and every behaviour of
the fetch and parse collaborators, the number of attempts made within one
single-item check never exceeds `maxRetries + 1` (each iteration of the
`while attempts <= max_retries` loop makes exactly one fetch attempt). -/
theorem attempts_bounded_by_budget (b : Behavior) (m : Nat) (p : Product) :
    (_check_single_product b m p).fetchCalls ≤ m + 1 := by
  have h := checkRun_fetchCalls_le b p.target_price (m + 1) none 0 0
  simpa using h

/-- Claim C3: with `maxRetries = 2` and a fetch collaborator that raises on
every call, `_check_single_product` makes exactly 3 fetch attempts; since no
attempt ever produced a body, the Failure Archiver is not invoked (and no
notification is sent). -/
theorem always_failing_fetch_three_attempts (b : Behavior) (p : Product)
    (h : ∀ i, b.fetch i = Except.error ()) :
    (_check_single_product b 2 p).fetchCalls = 3 ∧
    (_check_single_product b 2 p).archived = none ∧
    (_check_single_product b 2 p).notifyCalls = 0 := by
  simp [_check_single_product, checkRun, attemptStep, h, archiveOf]

/-- Witness for C3 at the concrete always-raising fetch collaborator. -/
theorem always_failing_fetch_three_attempts_witness :
    (_check_single_product alwaysFailFetch 2 prodC3).fetchCalls = 3 ∧
    (_check_single_product alwaysFailFetch 2 prodC3).archived = none ∧
    (_check_single_product alwaysFailFetch 2 prodC3).notifyCalls = 0 :=
  always_failing_fetch_three_attempts alwaysFailFetch prodC3 (fun _ => rfl)

/-- Claim C4: with `maxRetries = 2`, a fetch collaborator that raises on the
first two calls and on the third returns a body whose extracted price is at or
below the target, and a notifier that delivers, exactly 3 fetch attempts
occur, the notification gate fires exactly once, the check resolves through
the `return` (stopping immediately after the successful attempt), and the
Failure Archiver is never invoked. -/
theorem fail_twice_then_success (b : Behavior) (p : Product) (body : String)
    (price : ℚ)
    (h0 : b.fetch 0 = Except.error ()) (h1 : b.fetch 1 = Except.error ())
    (h2 : b.fetch 2 = Except.ok body) (h3 : b.parse body = some price)
    (h4 : price ≤ p.target_price) (h5 : b.notifyOk 0 = true) :
    _check_single_product b 2 p =
      { fetchCalls := 3, notifyCalls := 1, archived := none,
        resolved := true } := by
  simp [_check_single_product, checkRun, attemptStep, h0, h1, h2, h3, h4, h5]

/-- Witness for C4 at a concrete fail-fail-succeed fetch collaborator. -/
theorem fail_twice_then_success_witness :
    _check_single_product failTwiceThenCheap 2 prodC4 =
      { fetchCalls := 3, notifyCalls := 1, archived := none,
        resolved := true } :=
  fail_twice_then_success failTwiceThenCheap prodC4 "body" 8 rfl rfl rfl
    (by decide) (by decide) rfl

/-- Claim C1 (evidence of the code bug): `notifier.notify` is called inside the
same `try` block as the fetch (line 267 of `src/main.py`), so when the delivery
raises, the `except Exception` handler catches it (the exception indeed does
not propagate out of `_check_single_product`) but the `return` on line 269 is
skipped and the loop performs a further fetch attempt, contrary to the claim:
with `maxRetries = 1`, a fetch that always yields a price at or below target
and a notifier that always raises, two fetch attempts occur instead of one. -/
theorem notify_failure_triggers_refetch :
    (_check_single_product notifyFailEveryTime 1 prodC1).fetchCalls = 2 := by
  decide

/-- Counterexample to claim C2 as stated: with a notifier whose delivery always
raises, a body always priced at or below target and `maxRetries = 2`, the
notify collaborator is invoked more than once (three times) in one
single-item check. -/
theorem notify_more_than_once_on_delivery_failure :
    1 < (_check_single_product notifyFailEveryTime2 2 prodC2).notifyCalls := by
  decide

/-- Claim C2 as amended: provided every notify delivery returns normally, the
notify collaborator is invoked at most once per single-item check, and it is
invoked exactly once precisely when the first price extracted across the
attempts is at or below the target (so a price equal to the target fires the
notification and a price strictly above it does not); otherwise it is not
invoked. -/
theorem notify_at_most_once_and_gated (b : Behavior) (m : Nat) (p : Product)
    (h : ∀ i, b.notifyOk i = true) :
    (_check_single_product b m p).notifyCalls ≤ 1 ∧
    (_check_single_product b m p).notifyCalls =
      (match firstPrice b (m + 1) 0 with
       | some price => if price ≤ p.target_price then 1 else 0
       | none => 0) := by
  have heq := checkRun_notifyCalls_of_deliveryOk b p.target_price h (m + 1)
    none 0 0
  simp only [_check_single_product, heq, Nat.zero_add]
  refine ⟨?_, trivial⟩
  cases hfp : firstPrice b (m + 1) 0 with
  | none => simp
  | some price => by_cases hle : price ≤ p.target_price <;> simp [hle]

/-- Witness for the amended C2 at a delivering notifier and a price exactly
equal to the target. -/
theorem notify_at_most_once_and_gated_witness :
    (_check_single_product okNotify 2 prodC2a).notifyCalls ≤ 1 ∧
    (_check_single_product okNotify 2 prodC2a).notifyCalls =
      (match firstPrice okNotify (2 + 1) 0 with
       | some price => if price ≤ prodC2a.target_price then 1 else 0
       | none => 0) :=
  notify_at_most_once_and_gated okNotify 2 prodC2a (fun _ => rfl)

/-- Claim C10: the archive guard `if last_html:` makes the Failure Archiver run
only on a non-empty last body: whatever the collaborators do, an archived body
is never the empty string, and when every successful fetch returns the empty
string (or no fetch succeeds at all) nothing is archived. -/
theorem archive_only_nonempty_body (b : Behavior) (m : Nat) (p : Product) :
    (∀ s, (_check_single_product b m p).archived = some s → s ≠ "") ∧
    ((∀ i html, b.fetch i = Except.ok html → html = "") →
      (_check_single_product b m p).archived = none) := by
  constructor
  · intro s hs
    exact checkRun_archived_ne_empty b p.target_price (m + 1) none 0 0 s hs
  · intro h
    exact checkRun_archived_none_of_empty_bodies b p.target_price h (m + 1)
      none 0 0 (Or.inl rfl)

/-- Witness for C10: a non-empty last body "X" is archived as such (hence is
not empty), and an always-empty body is never archived. -/
theorem archive_only_nonempty_body_witness :
    ("X" : String) ≠ "" ∧
    (_check_single_product emptyBodyFetch 2 prodC10).archived = none :=
  ⟨(archive_only_nonempty_body nonemptyBodyFetch 2 prodC10).1 "X" (by decide),
   (archive_only_nonempty_body emptyBodyFetch 2 prodC10).2
     (fun i html hh => (Except.ok.inj hh).symm)⟩

/-- Claim C6: the Currency Normalizer maps "R$ 1.234,56" to 1234.56, returns
absent on every input without a digit character, and in particular converts
the parse failure on the separators-only input ",." into absent instead of an
exception (the function is total by construction, modelling the caught
`ValueError`). -/
theorem currency_normalizer_ok :
    _parse_brazilian_currency "R$ 1.234,56" = some (123456 / 100 : ℚ) ∧
    (∀ s : String, (∀ c ∈ s.data, c.isDigit = false) →
      _parse_brazilian_currency s = none) ∧
    _parse_brazilian_currency ",." = none := by
  refine ⟨?_, ?_, by decide⟩
  · have h1 : _parse_brazilian_currency "R$ 1.234,56" =
        some (((1234 : ℕ) : ℚ) + ((56 : ℕ) : ℚ) / (10 : ℚ) ^ (2 : ℕ)) := rfl
    rw [h1]
    norm_num
  · intro s h
    exact parseCurrencyChars_no_digit s.data h

/-- Witness for C6 at the digit-free input "abc". -/
theorem currency_normalizer_ok_witness :
    _parse_brazilian_currency "abc" = none :=
  currency_normalizer_ok.2.1 "abc" (by decide)

/-- Claim C7: on a page where the full-price selectors yield nothing usable and
the whole part is "1.499", the extractor returns 1499.99 when the fractional
part is "99", and 1499.00 when the fractional node is absent (the composed
string falls back to "00" for the fraction). -/
theorem whole_fraction_extraction (page : AmazonPage)
    (h1 : page.a_offscreen.getD "" = "")
    (h2 : page.corePrice_offscreen.getD "" = "")
    (hw : page.a_price_whole = some "1.499") :
    (page.a_price_fraction = some "99" →
      extract_price page = some (149999 / 100 : ℚ)) ∧
    (page.a_price_fraction = none → extract_price page = some (1499 : ℚ)) := by
  constructor
  · intro hf
    rw [extract_price_eq_whole_fraction page h1 h2]
    unfold extract_whole_fraction
    rw [hw, hf]
    have hval : _parse_brazilian_currency
        ("R$ " ++ "1.499" ++ "," ++ (some "99").getD "00") =
        some (((1499 : ℕ) : ℚ) + ((99 : ℕ) : ℚ) / (10 : ℚ) ^ (2 : ℕ)) := rfl
    rw [show (match (some "1.499" : Option String) with
        | some whole => _parse_brazilian_currency
            ("R$ " ++ whole ++ "," ++ (some "99").getD "00")
        | none => (none : Option ℚ)) = _parse_brazilian_currency
            ("R$ " ++ "1.499" ++ "," ++ (some "99").getD "00") from rfl, hval]
    norm_num
  · intro hf
    rw [extract_price_eq_whole_fraction page h1 h2]
    unfold extract_whole_fraction
    rw [hw, hf]
    have hval : _parse_brazilian_currency
        ("R$ " ++ "1.499" ++ "," ++ (none : Option String).getD "00") =
        some (((1499 : ℕ) : ℚ) + ((0 : ℕ) : ℚ) / (10 : ℚ) ^ (2 : ℕ)) := rfl
    rw [show (match (some "1.499" : Option String) with
        | some whole => _parse_brazilian_currency
            ("R$ " ++ whole ++ "," ++ (none : Option String).getD "00")
        | none => (none : Option ℚ)) = _parse_brazilian_currency
            ("R$ " ++ "1.499" ++ "," ++ (none : Option String).getD "00") from
      rfl, hval]
    norm_num

/-- Witness for C7 at concrete whole+fraction pages. -/
theorem whole_fraction_extraction_witness :
    extract_price pageC7a = some (149999 / 100 : ℚ) ∧
    extract_price pageC7b = some (1499 : ℚ) :=
  ⟨(whole_fraction_extraction pageC7a rfl rfl rfl).1 rfl,
   (whole_fraction_extraction pageC7b rfl rfl rfl).2 rfl⟩

/-- Claim C8: when neither a non-empty full-price node nor a whole-part node is
found, the extractor returns absent (and, the embedding being a total
function, it does not raise). -/
theorem extractor_returns_absent (page : AmazonPage)
    (h1 : page.a_offscreen.getD "" = "")
    (h2 : page.corePrice_offscreen.getD "" = "")
    (hw : page.a_price_whole = none) :
    extract_price page = none := by
  rw [extract_price_eq_whole_fraction page h1 h2]
  unfold extract_whole_fraction
  rw [hw]

/-- Witness for C8 at the page exposing neither price shape. -/
theorem extractor_returns_absent_witness : extract_price pageC8 = none :=
  extractor_returns_absent pageC8 rfl rfl rfl

/-- Claim C9: one pass of the monitor loop over 3 items produces exactly the
trace check, sleep, check, sleep, check — the inter-item pacing sleep occurs
exactly twice, after the first and second items and never after the last —
and `run_forever`, truncated to any number `n` of completed cycles, performs
the inter-cycle sleep exactly once per pass, `n` times in total. -/
theorem monitor_pacing_counts (p1 p2 p3 : Product) (n : Nat) :
    check_once [p1, p2, p3] =
      [MonitorEvent.checkItem p1.name, MonitorEvent.interItemSleep,
       MonitorEvent.checkItem p2.name, MonitorEvent.interItemSleep,
       MonitorEvent.checkItem p3.name] ∧
    (run_cycles [p1, p2, p3] n).countP isInterCycleSleep = n := by
  constructor
  · rfl
  · induction n with
    | zero => simp [run_cycles]
    | succ k ih =>
      simp [run_cycles, List.countP_append, List.countP_cons, ih, check_once,
        check_once_from, isInterCycleSleep]
